import Mathlib

/-!
A verification development for the AIChatBot backend (TypeScript/Express/
Socket.IO/Mongoose). The definitions below are a shallow embedding of the
chat-session subsystem:

* the `Chat` Mongoose schema and its instance/static methods
  (src/models — `ChatMessageSchema`, `ChatSchema`, `addMessage`,
  `findChatWithMessages`, the `pre('save')` hook and the path validators);
* the chat service (src/services/chatService.ts — `addMessageToChat`,
  `getChatById`);
* the session memory service (src/services/sessionMemoryService.ts —
  `extractAndStoreUserInfo`, `storeContext`, `getContext`, `getUserInfo`,
  `buildContextForAI`);
* the AI service (src/services/aiService.ts — `callGPT4`, `callClaude3`,
  `callMistral`, `callComposio`, `selectModel`, `generateAIResponse`);
* the Socket.IO handlers (src/services/socketService.ts —
  the `join_chat` and `message` event handlers).

Asynchronous I/O is modelled by passing outcomes explicitly: the result of a
backend HTTP call is a `BackendOutcome` parameter, wall-clock readings are
`Nat` parameters (milliseconds), and the persistent MongoDB state is an
explicit `DB` value threaded through the operations. Handlers are modelled
as functions from their inputs to the ordered list of observable actions
(service calls and socket emissions) they perform.
-/

namespace AIChatBot

/-- Chat topics: the `ChatTopic` enum (`health`, `education`). -/
inductive ChatTopic
  | health
  | education
deriving DecidableEq

/-- Message sender: the `sender` enum of `ChatMessageSchema` (`user` / `ai`). -/
inductive Sender
  | user
  | ai
deriving DecidableEq

/-- AI backends: the `AIModel` enum (`gpt-4`, `claude-3`, `mistral`, `composio`). -/
inductive AIModel
  | gpt4
  | claude3
  | mistral
  | composio
deriving DecidableEq

/-- JavaScript `String.prototype.trim()`: strips leading and trailing
whitespace. Implemented over the character list so that it is executable by
the kernel (Lean core `String.trim` is positional and does not reduce). -/
def jsTrim (s : String) : String :=
  ⟨((s.data.dropWhile Char.isWhitespace).reverse.dropWhile Char.isWhitespace).reverse⟩

/-- JavaScript `x || d` for an optional string `x`: the default is taken both
when the value is absent (`undefined`) and when it is the empty string
(falsy). -/
def truthyOr (o : Option String) (d : String) : String :=
  match o with
  | some s => if s = "" then d else s
  | none => d

/-- JavaScript truthiness of an optional string (`undefined` and `""` are
falsy). -/
def truthyStr (o : Option String) : Bool :=
  match o with
  | some s => s ≠ ""
  | none => false

/-- An embedded chat message (`ChatMessageSchema`): text, sender, timestamp
(assigned at append time, modelled in milliseconds), the AI model for AI
messages, and the generated `messageId`. -/
structure ChatMessage where
  text : String
  sender : Sender
  timestamp : Nat
  aiModel : Option AIModel
  messageId : String
deriving DecidableEq

/-- A message draft as supplied to `addMessage` / `addMessageToChat`:
`Omit<IChatMessage, 'timestamp' | 'messageId'>`. -/
structure MessageDraft where
  text : String
  sender : Sender
  aiModel : Option AIModel
deriving DecidableEq

/-- A `Chat` document, with exactly the paths declared by `ChatSchema`:
`userId`, `title`, `topics`, `messages`, `isActive`, `lastMessageAt`
(plus the document id). `ChatSchema` declares no `userInfo` and no
`sessionContext` path; the schema-managed `createdAt`/`updatedAt` timestamps
are not used by any property below and are omitted. -/
structure ChatDoc where
  id : String
  userId : String
  title : String
  topics : List ChatTopic
  messages : List ChatMessage
  isActive : Bool
  lastMessageAt : Nat
deriving DecidableEq

/-- The persistent MongoDB state: the collection of chat documents. -/
structure DB where
  chats : List ChatDoc
deriving DecidableEq

/-- `Chat.findOne({ _id: chatId, userId, isActive: true })` — the ownership-
scoped lookup used by `addMessageToChat`, `getChatHistory`, and (as the
static `findChatWithMessages`) by `getChatById`. The filter is scoped by
both the chat id and the requesting user id, and excludes soft-deleted
chats. -/
def findOne (db : DB) (chatId uid : String) : Option ChatDoc :=
  db.chats.find? (fun c => c.id == chatId && c.userId == uid && c.isActive)

/-- `Chat.findById(chatId)` — the unscoped lookup used by
`SessionMemoryService`. -/
def findById (db : DB) (chatId : String) : Option ChatDoc :=
  db.chats.find? (fun c => c.id == chatId)

/-- Replace the document with the same id (the effect of a successful
`document.save()` on the collection). -/
def dbReplace (db : DB) (c : ChatDoc) : DB :=
  { chats := db.chats.map (fun d => if d.id == c.id then c else d) }

/-- `ChatMessageSchema` path validation: `text` is required (non-empty) with
`maxlength` 5000, and `aiModel` is required when `sender` is `'ai'`. -/
def messageValid (m : ChatMessage) : Bool :=
  m.text ≠ "" && m.text.length ≤ 5000 && (m.sender == Sender.ai → m.aiModel.isSome)

/-- `ChatSchema` path validation as run by `save()`: the `topics` validator
(at least 1 and at most 2 topics), the `messages` validator (at most 1000
entries, message `'Chat cannot have more than 1000 messages'`), and the
embedded `ChatMessageSchema` validators. -/
def chatValidationError (c : ChatDoc) : Option String :=
  if ¬(0 < c.topics.length ∧ c.topics.length ≤ 2) then
    some "Chat must have at least 1 and at most 2 topics"
  else if 1000 < c.messages.length then
    some "Chat cannot have more than 1000 messages"
  else if ¬(c.messages.all messageValid) then
    some "Message validation failed"
  else none

/-- The `ChatSchema.pre('save')` hook: when `messages` is non-empty, set
`lastMessageAt` to the timestamp of the last message. -/
def preSave (c : ChatDoc) : ChatDoc :=
  match c.messages.getLast? with
  | some m => { c with lastMessageAt := m.timestamp }
  | none => c

/-- `document.save()`: runs the pre-save hook, then validation; on success
the document is persisted (replacing the stored copy), on validation failure
the returned promise rejects and the stored state is untouched. -/
def docSave (db : DB) (c : ChatDoc) : Except String (DB × ChatDoc) :=
  match chatValidationError (preSave c) with
  | some msg => Except.error msg
  | none => Except.ok (dbReplace db (preSave c), preSave c)

/-- `ChatSchema.methods.addMessage`: builds the full message from the draft
(assigning `timestamp := now` and a fresh `messageId`), pushes it onto
`messages`, sets `lastMessageAt`, and saves. -/
def docAddMessage (db : DB) (c : ChatDoc) (draft : MessageDraft) (now : Nat)
    (fid : String) : Except String (DB × ChatDoc) :=
  docSave db
    { c with
      messages := c.messages ++
        [{ text := draft.text, sender := draft.sender, aiModel := draft.aiModel,
           timestamp := now, messageId := fid }],
      lastMessageAt := now }

/-- `chatService.addMessageToChat`: scoped `findOne`, then `chat.addMessage`;
errors (`'Chat not found or access denied'`, validation failures) are
rethrown to the caller and leave the stored state unchanged. Returns the
resulting store together with the operation result. -/
def addMessageToChat (db : DB) (chatId uid : String) (draft : MessageDraft)
    (now : Nat) (fid : String) : DB × Except String ChatDoc :=
  match findOne db chatId uid with
  | none => (db, Except.error "Chat not found or access denied")
  | some c =>
    match docAddMessage db c draft now fid with
    | Except.ok (db2, c2) => (db2, Except.ok c2)
    | Except.error e => (db, Except.error e)

/-- One step of a sequential append workload: the draft plus the wall-clock
reading and fresh message id the store assigns at that append. -/
structure AppendStep where
  draft : MessageDraft
  now : Nat
  fid : String
deriving DecidableEq

/-- A sequence of `addMessage` calls on the same chat, each operating on the
document produced by the previous successful save; stops at the first
failure. -/
def appendAll (db : DB) (c : ChatDoc) (steps : List AppendStep) :
    Except String (DB × ChatDoc) :=
  match steps with
  | [] => Except.ok (db, c)
  | s :: rest =>
    match docAddMessage db c s.draft s.now s.fid with
    | Except.ok (db1, c1) => appendAll db1 c1 rest
    | Except.error e => Except.error e

/-- The wire value of a topic tag. -/
def topicName : ChatTopic → String
  | ChatTopic.health => "health"
  | ChatTopic.education => "education"

/-- Structured user information as read by `SessionMemoryService`
(`IUserInfo`): name, interests, goals, preferences. -/
structure UserInfo where
  name : Option String
  interests : List String
  goals : List String
  preferences : List (String × String)
deriving DecidableEq

/-- Reading `chat.userInfo` on a `Chat` document: `ChatSchema` declares no
`userInfo` path, so a Mongoose document never carries this property and the
JavaScript property read yields `undefined` — modelled as `none` for every
document. -/
def docUserInfo (_ : ChatDoc) : Option UserInfo := none

/-- Reading `chat.sessionContext` on a `Chat` document: `ChatSchema` declares
no `sessionContext` path, so the property read yields `undefined` — modelled
as `none` for every document. -/
def docSessionContext (_ : ChatDoc) : Option (List (String × String)) := none

/-- A thrown JavaScript error. -/
inductive JsError
  | typeError (msg : String)
deriving DecidableEq

/-- The result of `extractUserInfoFromMessage`: the pattern extractors can
set `name`, push `interests`, and push `goals` (never `preferences`). The
extraction result is taken as a parameter below, so every statement about
the callers holds for every possible extraction outcome. -/
structure ExtractedInfo where
  name : Option String
  interests : List String
  goals : List String
deriving DecidableEq

/-- `Object.keys(extractedInfo).length`: a key is present exactly when the
corresponding extractor fired. -/
def extractedKeyCount (i : ExtractedInfo) : Nat :=
  (if i.name.isSome then 1 else 0) +
    (if i.interests.isEmpty then 0 else 1) +
    (if i.goals.isEmpty then 0 else 1)

/-- The call `chat.updateUserInfo(extractedInfo)`: `ChatSchema` defines the
instance methods `addMessage`, `getMessageHistory` and `deactivate` only, so
`chat.updateUserInfo` is `undefined` and invoking it throws a `TypeError`;
nothing is written to the store. -/
def chatUpdateUserInfo (_ : DB) (_ : ChatDoc) (_ : ExtractedInfo) :
    Except JsError DB :=
  Except.error (JsError.typeError "chat.updateUserInfo is not a function")

/-- The call `chat.updateSessionContext(key, value)`: likewise not an
instance method of `ChatSchema`, so invoking it throws a `TypeError`. -/
def chatUpdateSessionContext (_ : DB) (_ : ChatDoc) (_ _ : String) :
    Except JsError DB :=
  Except.error (JsError.typeError "chat.updateSessionContext is not a function")

/-- The `try` body of `SessionMemoryService.extractAndStoreUserInfo`:
returns early for non-user senders and for missing chats; when the
extractors produced at least one key, calls `chat.updateUserInfo`. -/
def extractAndStoreUserInfoTry (db : DB) (chatId : String)
    (extracted : ExtractedInfo) (sender : Sender) : Except JsError DB :=
  if sender ≠ Sender.user then Except.ok db
  else
    match findById db chatId with
    | none => Except.ok db
    | some c =>
      if 0 < extractedKeyCount extracted then chatUpdateUserInfo db c extracted
      else Except.ok db

/-- `SessionMemoryService.extractAndStoreUserInfo`: the surrounding
`try`/`catch` logs and swallows every error, so the call always completes
and the store is returned (unchanged on error). -/
def extractAndStoreUserInfo (db : DB) (chatId : String)
    (extracted : ExtractedInfo) (sender : Sender) : DB :=
  match extractAndStoreUserInfoTry db chatId extracted sender with
  | Except.ok db2 => db2
  | Except.error _ => db

/-- The `try` body of `SessionMemoryService.storeContext`. -/
def storeContextTry (db : DB) (chatId key value : String) : Except JsError DB :=
  match findById db chatId with
  | none => Except.ok db
  | some c => chatUpdateSessionContext db c key value

/-- `SessionMemoryService.storeContext`: `try`/`catch` swallows every
error. -/
def storeContext (db : DB) (chatId key value : String) : DB :=
  match storeContextTry db chatId key value with
  | Except.ok db2 => db2
  | Except.error _ => db

/-- `SessionMemoryService.getContext`: `findById`, then
`if (chat && chat.sessionContext) return chat.sessionContext.get(key)`,
otherwise `null`. -/
def getContext (db : DB) (chatId key : String) : Option String :=
  match findById db chatId with
  | none => none
  | some c =>
    match docSessionContext c with
    | some entries => entries.lookup key
    | none => none

/-- `SessionMemoryService.getUserInfo`: `chat?.userInfo || null`. -/
def getUserInfo (db : DB) (chatId : String) : Option UserInfo :=
  match findById db chatId with
  | none => none
  | some c => docUserInfo c

/-- The user-information block of `buildContextForAI` (name, interests,
goals, preferences, in source order; each line guarded by JavaScript
truthiness of the underlying datum). -/
def renderUserInfoSection (ui : Option UserInfo) : String :=
  match ui with
  | none => ""
  | some u =>
    (if truthyStr u.name then "User\x27s name: " ++ u.name.getD "" ++ "\n" else "")
      ++ (if 0 < u.interests.length then
            "User\x27s interests: " ++ String.intercalate ", " u.interests ++ "\n"
          else "")
      ++ (if 0 < u.goals.length then
            "User\x27s goals: " ++ String.intercalate ", " u.goals ++ "\n"
          else "")
      ++ (if 0 < u.preferences.length then
            "User\x27s preferences: "
              ++ String.intercalate ", " (u.preferences.map (fun p => p.1 ++ ": " ++ p.2))
              ++ "\n"
          else "")

/-- The session-context block of `buildContextForAI`
(`if (chat.sessionContext && chat.sessionContext.size > 0)`). -/
def renderSessionSection (sc : Option (List (String × String))) : String :=
  match sc with
  | none => ""
  | some entries =>
    if 0 < entries.length then
      "Session context:\n"
        ++ String.join (entries.map (fun kv => "- " ++ kv.1 ++ ": " ++ kv.2 ++ "\n"))
    else ""

/-- The wire value of a sender. -/
def senderName : Sender → String
  | Sender.user => "user"
  | Sender.ai => "ai"

/-- The recent-conversation block of `buildContextForAI`: when `messages` is
non-empty, a header followed by `messages.slice(-5)` rendered one per line
as `sender: text`. `slice(-5)` is the suffix of length `min 5 length`,
that is `drop (length - 5)`. -/
def renderRecentSection (msgs : List ChatMessage) : String :=
  if 0 < msgs.length then
    "\nRecent conversation:\n"
      ++ String.join ((msgs.drop (msgs.length - 5)).map
          (fun m => senderName m.sender ++ ": " ++ m.text ++ "\n"))
  else ""

/-- The accumulation performed by `buildContextForAI` on a fetched chat: the
user-information block, then the session-context block, then the
recent-conversation block, then `context.trim()`. -/
def buildContextCore (ui : Option UserInfo) (sc : Option (List (String × String)))
    (msgs : List ChatMessage) : String :=
  jsTrim (renderUserInfoSection ui ++ renderSessionSection sc ++ renderRecentSection msgs)

/-- `SessionMemoryService.buildContextForAI`: `findById`, `''` when the chat
is missing, otherwise the rendered context. -/
def buildContextForAI (db : DB) (chatId : String) : String :=
  match findById db chatId with
  | none => ""
  | some c => buildContextCore (docUserInfo c) (docSessionContext c) c.messages

/-- No user fact passes its truthiness guard (used to state when the
user-information block is empty). -/
def userFactsEmpty (ui : Option UserInfo) : Bool :=
  match ui with
  | none => true
  | some u =>
    !truthyStr u.name && u.interests.isEmpty && u.goals.isEmpty && u.preferences.isEmpty

/-- The session-context data is absent or empty. -/
def sessionEmpty (sc : Option (List (String × String))) : Bool :=
  match sc with
  | none => true
  | some entries => entries.isEmpty

/-- The uniform AI result shape (`AIResponse`): text, model, success tag,
optional error reason, optional token count and latency. -/
structure AIResponse where
  text : String
  model : AIModel
  success : Bool
  error : Option String
  tokensUsed : Option Nat
  responseTime : Option Nat
deriving DecidableEq

/-- The outcome of the one real backend HTTP call
(`openai.chat.completions.create`): either a completion (whose first-choice
content and token usage may each be absent) or a thrown error (an `Error`
carrying a message, or a non-`Error` value carrying none). -/
inductive BackendOutcome
  | ok (content : Option String) (tokens : Option Nat)
  | err (message : Option String)
deriving DecidableEq

/-- The per-topic system-prompt fragments of `generateSystemPrompt`. -/
def topicPrompt : ChatTopic → String
  | ChatTopic.health =>
    "You are a helpful health assistant. Provide accurate, evidence-based health information while emphasizing that you cannot replace professional medical advice. Always recommend consulting healthcare professionals for serious concerns."
  | ChatTopic.education =>
    "You are an educational assistant. Help users learn new concepts, explain complex topics in simple terms, and provide study guidance. Encourage critical thinking and lifelong learning."

/-- `generateSystemPrompt`: the single topic fragment, or for two topics the
combined prompt joining the topic names with `' and '` and concatenating
both fragments in topic-array order. (`topics` is validated non-empty
upstream; the empty case is unreachable.) -/
def generateSystemPrompt (topics : List ChatTopic) : String :=
  match topics with
  | [t] => topicPrompt t
  | t0 :: t1 :: _ =>
    "You are a helpful assistant specializing in "
      ++ String.intercalate " and " (topics.map topicName) ++ ". "
      ++ topicPrompt t0 ++ " " ++ topicPrompt t1
  | [] => ""

/-- `callGPT4`: on a completion, a success result whose text defaults to
`'No response generated'` when the content is absent or empty; on any thrown
error (timeout, auth, quota, …), the `catch` converts it into a tagged
failure result — nothing propagates to the caller. The prompt and topics
determine only what is sent, not the shape of the result. -/
def callGPT4 (_prompt : String) (_topics : List ChatTopic)
    (outcome : BackendOutcome) (elapsed : Nat) : AIResponse :=
  match outcome with
  | BackendOutcome.ok content tokens =>
    { text := truthyOr content "No response generated", model := AIModel.gpt4,
      success := true, error := none, tokensUsed := tokens,
      responseTime := some elapsed }
  | BackendOutcome.err msg =>
    { text := "", model := AIModel.gpt4, success := false,
      error := some (msg.getD "GPT-4 API error"), tokensUsed := none,
      responseTime := some elapsed }

/-- `callClaude3` (disabled — no API key): a constant tagged failure. -/
def callClaude3 (_prompt : String) (_topics : List ChatTopic) (elapsed : Nat) :
    AIResponse :=
  { text := "", model := AIModel.claude3, success := false,
    error := some "Claude 3 API key not configured", tokensUsed := none,
    responseTime := some elapsed }

/-- `callMistral` (disabled — no API key): a constant tagged failure. -/
def callMistral (_prompt : String) (_topics : List ChatTopic) (elapsed : Nat) :
    AIResponse :=
  { text := "", model := AIModel.mistral, success := false,
    error := some "Mistral API key not configured", tokensUsed := none,
    responseTime := some elapsed }

/-- `callComposio` (disabled — no API key): a constant tagged failure. -/
def callComposio (_prompt : String) (_topics : List ChatTopic) (elapsed : Nat) :
    AIResponse :=
  { text := "", model := AIModel.composio, success := false,
    error := some "Composio API key not configured", tokensUsed := none,
    responseTime := some elapsed }

/-- `selectModel`: the current policy always returns GPT-4. -/
def selectModel (_topics : List ChatTopic) : AIModel := AIModel.gpt4

/-- The `modelFunctions` dispatch table of `generateAIResponse`. -/
def modelCall (m : AIModel) (prompt : String) (topics : List ChatTopic)
    (outcome : BackendOutcome) (elapsed : Nat) : AIResponse :=
  match m with
  | AIModel.gpt4 => callGPT4 prompt topics outcome elapsed
  | AIModel.claude3 => callClaude3 prompt topics elapsed
  | AIModel.mistral => callMistral prompt topics elapsed
  | AIModel.composio => callComposio prompt topics elapsed

/-- The stable user-safe fallback text returned when generation fails. -/
def fallbackText : String :=
  "I apologize, but I\x27m currently experiencing technical difficulties. Please try again in a moment."

/-- The final failure result of `generateAIResponse`: fallback text, model
hardcoded to GPT-4, and the constant error reason. -/
def fallbackResponse : AIResponse :=
  { text := fallbackText, model := AIModel.gpt4, success := false,
    error := some "AI model unavailable", tokensUsed := none,
    responseTime := none }

/-- The enhanced-prompt step of `generateAIResponse`: when a `chatId` was
supplied and the assembled session context is non-empty, the context is
prefixed to the prompt; otherwise the prompt is used unchanged. -/
def enhancePrompt (db : DB) (chatId : Option String) (prompt : String) : String :=
  match chatId with
  | none => prompt
  | some cid =>
    let sc := buildContextForAI db cid
    if sc ≠ "" then
      "Context from previous conversation:\n" ++ sc ++ "\n\nCurrent message: " ++ prompt
    else prompt

/-- The observable outcome of one `generateAIResponse` call: the returned
result, the backends actually invoked (in invocation order), and the user
prompt that was sent to the invoked backend. -/
structure GenRun where
  response : AIResponse
  invoked : List AIModel
  promptSent : String
deriving DecidableEq

/-- `generateAIResponse` (src/services/aiService.ts lines 162-208): selects
the preferred (or routed) model, builds the enhanced prompt, invokes exactly
that one model via the dispatch table, returns its result on success, and
otherwise returns `fallbackResponse` — no further backend is invoked
(`// Since only GPT-4 is available, no fallback needed`). Total by
construction: every path yields a value. -/
def generateAIRun (prompt : String) (topics : List ChatTopic)
    (chatId : Option String) (preferred : Option AIModel) (db : DB)
    (outcome : BackendOutcome) (elapsed : Nat) : GenRun :=
  let selected := preferred.getD (selectModel topics)
  let enhanced := enhancePrompt db chatId prompt
  let resp := modelCall selected enhanced topics outcome elapsed
  if resp.success then
    { response := resp, invoked := [selected], promptSent := enhanced }
  else
    { response := fallbackResponse, invoked := [selected], promptSent := enhanced }

/-- The value returned to `generateAIResponse` callers. -/
def generateAIResponse (prompt : String) (topics : List ChatTopic)
    (chatId : Option String) (preferred : Option AIModel) (db : DB)
    (outcome : BackendOutcome) (elapsed : Nat) : AIResponse :=
  (generateAIRun prompt topics chatId preferred db outcome elapsed).response

/-- The observable actions of the Socket.IO `message` handler, in execution
order: a scoped `error` emission to the origin socket, an
`addMessageToChat` persistence attempt, a room broadcast of a `message`
event, the `ai_thinking` notice, a `SessionMemoryService` utterance-recording
call, and a `generateAIResponse` invocation (recording the prompt, topics
and optional chat id supplied to it). `recordUserUtterance` is part of the
vocabulary so that its absence from every trace is statable. -/
inductive HandlerAction
  | emitError (code msg : String)
  | persistAttempt (chatId uid : String) (draft : MessageDraft)
  | broadcast (room : String) (m : ChatMessage)
  | emitThinking (chatId : String)
  | recordUserUtterance (chatId text : String)
  | generateCall (prompt : String) (topics : List ChatTopic) (chatId : Option String)
deriving DecidableEq

/-- Whether an action is a scoped `error` emission. -/
def isEmitError : HandlerAction → Bool
  | HandlerAction.emitError _ _ => true
  | _ => false

/-- Whether an action is a `SessionMemoryService` utterance-recording call. -/
def isRecordUtterance : HandlerAction → Bool
  | HandlerAction.recordUserUtterance _ _ => true
  | _ => false

/-- The Socket.IO `message` event handler (src/services/socketService.ts
lines 166-283), as the ordered list of its observable actions. Inputs:
the authenticated user id (`socket.userId`), the event payload, the store,
the outcomes of the two `addMessageToChat` calls (`persistUser`,
`persistAI` — both awaited inside `try`/`catch` blocks that log and
continue, so the outcome does not alter control flow), the backend outcome
and latency for the `generateAIResponse` call, and the two wall-clock
readings used for the broadcast timestamps/message ids. The chat lookup is
`getChatById`, which never rejects (it catches internally and returns
`null`), so it is modelled by the scoped `findOne`. -/
def messageHandler (userId : Option String) (text chatId : String) (db : DB)
    (_persistUser _persistAI : Except String ChatDoc)
    (outcome : BackendOutcome) (elapsed : Nat) (now1 now2 : Nat) :
    List HandlerAction :=
  match userId with
  | none => [HandlerAction.emitError "NOT_AUTHENTICATED" "User not authenticated"]
  | some uid =>
    if (jsTrim text).length = 0 then
      [HandlerAction.emitError "INVALID_MESSAGE" "Message text is required"]
    else if 5000 < text.length then
      [HandlerAction.emitError "MESSAGE_TOO_LONG" "Message too long (max 5000 characters)"]
    else
      match findOne db chatId uid with
      | none =>
        [HandlerAction.emitError "CHAT_NOT_FOUND" "Chat not found or access denied"]
      | some chat =>
        let userDraft : MessageDraft :=
          { text := jsTrim text, sender := Sender.user, aiModel := none }
        let userMsg : ChatMessage :=
          { text := jsTrim text, sender := Sender.user, aiModel := none,
            timestamp := now1, messageId := toString now1 }
        let run := generateAIRun text chat.topics none none db outcome elapsed
        [HandlerAction.persistAttempt chatId uid userDraft,
         HandlerAction.broadcast chatId userMsg,
         HandlerAction.emitThinking chatId,
         HandlerAction.generateCall text chat.topics none]
          ++ (if run.response.success && run.response.text ≠ "" then
                [HandlerAction.persistAttempt chatId uid
                   { text := run.response.text, sender := Sender.ai,
                     aiModel := some run.response.model },
                 HandlerAction.broadcast chatId
                   { text := run.response.text, sender := Sender.ai,
                     aiModel := some run.response.model, timestamp := now2,
                     messageId := toString now2 }]
              else
                [HandlerAction.emitError "AI_ERROR"
                   (truthyOr run.response.error "AI response generation failed")])

/-- The observable actions of the Socket.IO `join_chat` handler. -/
inductive JoinAction
  | emitError (code msg : String)
  | joinRoom (room : String)
  | emitJoined (chatId : String)
deriving DecidableEq

/-- The Socket.IO `join_chat` event handler (src/services/socketService.ts
lines 114-155): after the authentication check, looks the chat up through
`getChatById` — the scoped `findOne` on `(chatId, userId, isActive)` — and
on a missing result emits a scoped error without subscribing; on success it
subscribes the socket to the room keyed by the chat id and confirms. -/
def joinChatHandler (userId : Option String) (chatId : String) (db : DB) :
    List JoinAction :=
  match userId with
  | none => [JoinAction.emitError "NOT_AUTHENTICATED" "User not authenticated"]
  | some uid =>
    match findOne db chatId uid with
    | none => [JoinAction.emitError "CHAT_NOT_FOUND" "Chat not found or access denied"]
    | some _ => [JoinAction.joinRoom chatId, JoinAction.emitJoined chatId]

/-- An empty store. -/
def emptyDb : DB := { chats := [] }

/-- A stored chat owned by user `u1`. -/
def sampleChat : ChatDoc :=
  { id := "c1", userId := "u1", title := "health Chat", topics := [ChatTopic.health],
    messages := [], isActive := true, lastMessageAt := 0 }

/-- A store holding `sampleChat`. -/
def sampleDb : DB := { chats := [sampleChat] }

/-- A stored user message. -/
def msg0 : ChatMessage :=
  { text := "m", sender := Sender.user, aiModel := none, timestamp := 1,
    messageId := "0" }

/-- A chat already holding 1000 messages. -/
def chat1000 : ChatDoc :=
  { id := "c2", userId := "u2", title := "t", topics := [ChatTopic.health],
    messages := List.replicate 1000 msg0, isActive := true, lastMessageAt := 1 }

/-- A store holding `chat1000`. -/
def fullDb : DB := { chats := [chat1000] }

/-- A user-message draft. -/
def draft0 : MessageDraft :=
  { text := "hello", sender := Sender.user, aiModel := none }

/-- A store whose only chat is owned by a different user. -/
def otherDb : DB :=
  { chats := [{ id := "c9", userId := "other", title := "t",
                topics := [ChatTopic.health], messages := [], isActive := true,
                lastMessageAt := 0 }] }

/-- A fresh chat for the sequential-append scenario. -/
def w8chat : ChatDoc :=
  { id := "c8", userId := "u8", title := "t", topics := [ChatTopic.education],
    messages := [], isActive := true, lastMessageAt := 0 }

/-- A store holding `w8chat`. -/
def w8db : DB := { chats := [w8chat] }

/-- Two sequential append steps with non-decreasing clock readings. -/
def w8steps : List AppendStep :=
  [{ draft := { text := "a", sender := Sender.user, aiModel := none },
     now := 1, fid := "m1" },
   { draft := { text := "b", sender := Sender.ai, aiModel := some AIModel.gpt4 },
     now := 2, fid := "m2" }]

/-- The chat document after both appends of `w8steps`. -/
def w8chat2 : ChatDoc :=
  { id := "c8", userId := "u8", title := "t", topics := [ChatTopic.education],
    messages :=
      [{ text := "a", sender := Sender.user, aiModel := none, timestamp := 1,
         messageId := "m1" },
       { text := "b", sender := Sender.ai, aiModel := some AIModel.gpt4,
         timestamp := 2, messageId := "m2" }],
    isActive := true, lastMessageAt := 2 }

/-- The store after both appends of `w8steps`. -/
def w8db2 : DB := { chats := [w8chat2] }

/-- A user-information value matching the spec scenario (name Sam, one
interest). -/
def wUI : UserInfo :=
  { name := some "Sam", interests := ["chess"], goals := [], preferences := [] }

/-- Six stored messages. -/
def wMsgs : List ChatMessage :=
  [{ text := "one", sender := Sender.user, aiModel := none, timestamp := 1, messageId := "i1" },
   { text := "two", sender := Sender.ai, aiModel := some AIModel.gpt4, timestamp := 2, messageId := "i2" },
   { text := "three", sender := Sender.user, aiModel := none, timestamp := 3, messageId := "i3" },
   { text := "four", sender := Sender.ai, aiModel := some AIModel.gpt4, timestamp := 4, messageId := "i4" },
   { text := "five", sender := Sender.user, aiModel := none, timestamp := 5, messageId := "i5" },
   { text := "six", sender := Sender.ai, aiModel := some AIModel.gpt4, timestamp := 6, messageId := "i6" }]

/-! Helper lemmas about strings and the rendering blocks. -/

theorem str_empty_append (s : String) : "" ++ s = s := by
  cases s
  rfl

theorem str_len_append (s t : String) : (s ++ t).length = s.length + t.length :=
  String.length_append s t

theorem str_eq_empty_iff_len (s : String) : s = "" ↔ s.length = 0 := by
  constructor
  · intro h
    rw [h]
    rfl
  · intro h
    cases s with
    | mk d =>
      simp only [String.length] at h
      rw [List.length_eq_zero] at h
      rw [h]

theorem ite_str_len_zero_iff (c : Prop) [Decidable c] (s : String)
    (hs : 0 < s.length) : (if c then s else "").length = 0 ↔ ¬c := by
  by_cases h : c
  · rw [if_pos h]
    exact ⟨fun h0 => absurd h0 (by omega), fun hc => absurd h hc⟩
  · rw [if_neg h]
    exact ⟨fun _ => h, fun _ => rfl⟩

theorem renderUserInfoSection_empty_iff (ui : Option UserInfo) :
    renderUserInfoSection ui = "" ↔ userFactsEmpty ui = true := by
  cases ui with
  | none => simp [renderUserInfoSection, userFactsEmpty]
  | some u =>
    have hn : (0:Nat) < "\n".length := by decide
    have p1 : 0 < ("User\x27s name: " ++ u.name.getD "" ++ "\n").length := by
      rw [str_len_append, str_len_append]
      omega
    have p2 : 0 < ("User\x27s interests: " ++ String.intercalate ", " u.interests ++ "\n").length := by
      rw [str_len_append, str_len_append]
      omega
    have p3 : 0 < ("User\x27s goals: " ++ String.intercalate ", " u.goals ++ "\n").length := by
      rw [str_len_append, str_len_append]
      omega
    have p4 : 0 < ("User\x27s preferences: "
        ++ String.intercalate ", " (u.preferences.map (fun p => p.1 ++ ": " ++ p.2))
        ++ "\n").length := by
      rw [str_len_append, str_len_append]
      omega
    have e1 := ite_str_len_zero_iff (truthyStr u.name = true) _ p1
    have e2 := ite_str_len_zero_iff (0 < u.interests.length) _ p2
    have e3 := ite_str_len_zero_iff (0 < u.goals.length) _ p3
    have e4 := ite_str_len_zero_iff (0 < u.preferences.length) _ p4
    rw [str_eq_empty_iff_len]
    simp only [renderUserInfoSection, userFactsEmpty]
    rw [str_len_append, str_len_append, str_len_append]
    constructor
    · intro h
      have z1 : (if truthyStr u.name then "User\x27s name: " ++ u.name.getD "" ++ "\n" else "").length = 0 := by omega
      have z2 : (if 0 < u.interests.length then "User\x27s interests: " ++ String.intercalate ", " u.interests ++ "\n" else "").length = 0 := by omega
      have z3 : (if 0 < u.goals.length then "User\x27s goals: " ++ String.intercalate ", " u.goals ++ "\n" else "").length = 0 := by omega
      have z4 : (if 0 < u.preferences.length then "User\x27s preferences: " ++ String.intercalate ", " (u.preferences.map (fun p => p.1 ++ ": " ++ p.2)) ++ "\n" else "").length = 0 := by omega
      rw [e1] at z1
      rw [e2] at z2
      rw [e3] at z3
      rw [e4] at z4
      have g1 : truthyStr u.name = false := by
        cases hb : truthyStr u.name
        · rfl
        · exact absurd hb z1
      have g2 : u.interests.isEmpty = true := by
        rw [List.isEmpty_iff, ← List.length_eq_zero]
        omega
      have g3 : u.goals.isEmpty = true := by
        rw [List.isEmpty_iff, ← List.length_eq_zero]
        omega
      have g4 : u.preferences.isEmpty = true := by
        rw [List.isEmpty_iff, ← List.length_eq_zero]
        omega
      simp [g1, g2, g3, g4]
    · intro h
      simp only [Bool.and_eq_true, Bool.not_eq_true'] at h
      obtain ⟨⟨⟨g1, g2⟩, g3⟩, g4⟩ := h
      rw [List.isEmpty_iff, ← List.length_eq_zero] at g2 g3 g4
      rw [if_neg (by simp [g1]), if_neg (by omega), if_neg (by omega), if_neg (by omega)]
      rfl

theorem renderSessionSection_empty_iff (sc : Option (List (String × String))) :
    renderSessionSection sc = "" ↔ sessionEmpty sc = true := by
  cases sc with
  | none => simp [renderSessionSection, sessionEmpty]
  | some entries =>
    by_cases h : 0 < entries.length
    · simp only [renderSessionSection, sessionEmpty, if_pos h]
      constructor
      · intro habs
        rw [str_eq_empty_iff_len, str_len_append] at habs
        have : ("Session context:\n").length = 17 := rfl
        omega
      · intro hemp
        rw [List.isEmpty_iff, ← List.length_eq_zero] at hemp
        omega
    · simp only [renderSessionSection, sessionEmpty, if_neg h]
      have : entries.isEmpty = true := by
        rw [List.isEmpty_iff, ← List.length_eq_zero]
        omega
      simp [this]

theorem renderRecentSection_empty_iff (msgs : List ChatMessage) :
    renderRecentSection msgs = "" ↔ msgs = [] := by
  by_cases h : 0 < msgs.length
  · simp only [renderRecentSection, if_pos h]
    constructor
    · intro habs
      rw [str_eq_empty_iff_len, str_len_append] at habs
      have : ("\nRecent conversation:\n").length = 22 := rfl
      omega
    · intro hemp
      rw [hemp] at h
      exact absurd h (by decide)
  · simp only [renderRecentSection, if_neg h]
    have : msgs = [] := by
      rw [← List.length_eq_zero]
      omega
    simp [this]

theorem generateAIRun_err (prompt : String) (topics : List ChatTopic)
    (chatId : Option String) (preferred : Option AIModel) (db : DB)
    (msg : Option String) (elapsed : Nat) :
    generateAIRun prompt topics chatId preferred db (BackendOutcome.err msg) elapsed
      = { response := fallbackResponse, invoked := [preferred.getD AIModel.gpt4],
          promptSent := enhancePrompt db chatId prompt } := by
  cases preferred with
  | none =>
    simp [generateAIRun, selectModel, modelCall, callGPT4]
  | some m =>
    cases m <;>
      simp [generateAIRun, selectModel, modelCall, callGPT4, callClaude3,
        callMistral, callComposio]

theorem generateAIRun_promptSent (prompt : String) (topics : List ChatTopic)
    (chatId : Option String) (preferred : Option AIModel) (db : DB)
    (outcome : BackendOutcome) (elapsed : Nat) :
    (generateAIRun prompt topics chatId preferred db outcome elapsed).promptSent
      = enhancePrompt db chatId prompt := by
  cases h : (modelCall (preferred.getD (selectModel topics))
      (enhancePrompt db chatId prompt) topics outcome elapsed).success <;>
    simp [generateAIRun, h]

/-- C2 counterexample: with a single enumerated-backend failure (a timeout
on the preferred GPT-4 backend), `generateAIResponse` does not invoke the
remaining enumerated backends — the invocation list is `[gpt4]` only — and
the returned failure result carries the constant reason
`'AI model unavailable'`, not the last backend's own error reason. -/
theorem c2_counterexample :
    (generateAIRun "hello" [ChatTopic.health] none none emptyDb
        (BackendOutcome.err (some "Request timed out")) 7).invoked = [AIModel.gpt4]
    ∧ (generateAIRun "hello" [ChatTopic.health] none none emptyDb
        (BackendOutcome.err (some "Request timed out")) 7).response.error
        = some "AI model unavailable"
    ∧ (generateAIRun "hello" [ChatTopic.health] none none emptyDb
        (BackendOutcome.err (some "Request timed out")) 7).response.error
        ≠ some "Request timed out" := by
  refine ⟨rfl, rfl, ?_⟩
  decide

/-- C2 (amended): when the preferred (primary) backend's invocation fails,
`generateAIResponse` invokes no further backends — exactly the one selected
backend is invoked — and immediately returns the failure result carrying the
stable user-safe fallback message together with the constant error reason
`'AI model unavailable'` (the failed backend's own error reason is not
propagated). -/
theorem c2_no_fallback_chain (prompt : String) (topics : List ChatTopic)
    (chatId : Option String) (preferred : Option AIModel) (db : DB)
    (msg : Option String) (elapsed : Nat) :
    (generateAIRun prompt topics chatId preferred db (BackendOutcome.err msg) elapsed).invoked
        = [preferred.getD AIModel.gpt4]
    ∧ (generateAIRun prompt topics chatId preferred db (BackendOutcome.err msg) elapsed).response
        = fallbackResponse := by
  rw [generateAIRun_err]
  exact ⟨rfl, rfl⟩

/-- C5: `generateAIResponse` is total (it returns a value on every path —
failures of the backend call are materialised as the `BackendOutcome.err`
constructor, which the service's `catch` converts into a tagged result), and
whenever the sole configured backend's invocation fails — timeout, auth
failure, quota, any thrown error — the returned result is tagged
`success = false`, its text is the stable fallback message, and its error
reason is non-empty. -/
theorem c5_router_failure_contained (prompt : String) (topics : List ChatTopic)
    (chatId : Option String) (preferred : Option AIModel) (db : DB)
    (msg : Option String) (elapsed : Nat) :
    (generateAIResponse prompt topics chatId preferred db (BackendOutcome.err msg) elapsed).success = false
    ∧ (generateAIResponse prompt topics chatId preferred db (BackendOutcome.err msg) elapsed).text = fallbackText
    ∧ ∃ e, (generateAIResponse prompt topics chatId preferred db (BackendOutcome.err msg) elapsed).error = some e
        ∧ e ≠ "" := by
  unfold generateAIResponse
  rw [generateAIRun_err]
  exact ⟨rfl, rfl, "AI model unavailable", rfl, by decide⟩

/-- C4: because `ChatSchema` declares no `userInfo` or `sessionContext` path
and no `updateUserInfo`/`updateSessionContext` instance method, for every
store, every chat id and every possible extraction result:
`extractAndStoreUserInfo` and `storeContext` complete (returning the store)
without persisting anything — the internal `TypeError` from invoking the
missing method is swallowed by the `catch` — `getContext` and `getUserInfo`
always return `none`, and `buildContextForAI` only ever renders the
recent-conversation block of the context. -/
theorem c4_memory_fields_never_persisted (db : DB) (chatId key value : String)
    (extracted : ExtractedInfo) (sender : Sender) :
    extractAndStoreUserInfo db chatId extracted sender = db
    ∧ storeContext db chatId key value = db
    ∧ getContext db chatId key = none
    ∧ getUserInfo db chatId = none
    ∧ buildContextForAI db chatId
        = jsTrim (renderRecentSection
            (((findById db chatId).map (fun c => c.messages)).getD [])) := by
  refine ⟨?_, ?_, ?_, ?_, ?_⟩
  · unfold extractAndStoreUserInfo extractAndStoreUserInfoTry
    by_cases hs : sender ≠ Sender.user
    · rw [if_pos hs]
    · rw [if_neg hs]
      cases hfind : findById db chatId with
      | none => rfl
      | some c =>
        by_cases hk : 0 < extractedKeyCount extracted
        · simp [hk, chatUpdateUserInfo]
        · simp [hk]
  · unfold storeContext storeContextTry
    cases hfind : findById db chatId with
    | none => rfl
    | some c => rfl
  · unfold getContext
    cases hfind : findById db chatId with
    | none => rfl
    | some c => rfl
  · unfold getUserInfo
    cases hfind : findById db chatId with
    | none => rfl
    | some c => rfl
  · unfold buildContextForAI
    cases hfind : findById db chatId with
    | none => rfl
    | some c =>
      show buildContextCore (docUserInfo c) (docSessionContext c) c.messages = _
      unfold buildContextCore docUserInfo docSessionContext
      rw [show renderUserInfoSection none = "" from rfl,
        show renderSessionSection none = "" from rfl,
        str_empty_append, str_empty_append]
      rfl

/-- C10: for every user-information value, session-context value and message
list the chat could carry, `buildContextForAI`'s rendering is the trimmed
concatenation, in this fixed order, of the user-facts block, the
session-context block, and the recent-conversation block; a block is the
empty string exactly when its underlying data is empty, and when messages
exist the recent block renders exactly the last `min 5 length` messages (a
suffix of the stored list) one per line as `sender: text`. -/
theorem c10_assembled_context_rendering (ui : Option UserInfo)
    (sc : Option (List (String × String))) (msgs : List ChatMessage) :
    ∃ secU secS secM : String,
      buildContextCore ui sc msgs = jsTrim (secU ++ secS ++ secM)
      ∧ (secU = "" ↔ userFactsEmpty ui = true)
      ∧ (secS = "" ↔ sessionEmpty sc = true)
      ∧ (secM = "" ↔ msgs = [])
      ∧ msgs.take (msgs.length - 5) ++ msgs.drop (msgs.length - 5) = msgs
      ∧ (msgs.drop (msgs.length - 5)).length = min 5 msgs.length
      ∧ (msgs ≠ [] →
          secM = "\nRecent conversation:\n"
            ++ String.join ((msgs.drop (msgs.length - 5)).map
                (fun m => senderName m.sender ++ ": " ++ m.text ++ "\n"))) := by
  refine ⟨renderUserInfoSection ui, renderSessionSection sc, renderRecentSection msgs,
    rfl, renderUserInfoSection_empty_iff ui, renderSessionSection_empty_iff sc,
    renderRecentSection_empty_iff msgs, List.take_append_drop _ _, ?_, ?_⟩
  · rw [List.length_drop]
    omega
  · intro h
    unfold renderRecentSection
    rw [if_pos (List.length_pos.mpr h)]

/-- C10 witness: the rendering property instantiated at the spec scenario —
user name Sam, one interest, empty session context, six stored messages. -/
theorem c10_witness :
    ∃ secU secS secM : String,
      buildContextCore (some wUI) none wMsgs = jsTrim (secU ++ secS ++ secM)
      ∧ (secU = "" ↔ userFactsEmpty (some wUI) = true)
      ∧ (secS = "" ↔ sessionEmpty none = true)
      ∧ (secM = "" ↔ wMsgs = [])
      ∧ wMsgs.take (wMsgs.length - 5) ++ wMsgs.drop (wMsgs.length - 5) = wMsgs
      ∧ (wMsgs.drop (wMsgs.length - 5)).length = min 5 wMsgs.length
      ∧ (wMsgs ≠ [] →
          secM = "\nRecent conversation:\n"
            ++ String.join ((wMsgs.drop (wMsgs.length - 5)).map
                (fun m => senderName m.sender ++ ": " ++ m.text ++ "\n"))) :=
  c10_assembled_context_rendering (some wUI) none wMsgs

theorem preSave_pushed (c : ChatDoc) (ms : List ChatMessage) (m : ChatMessage)
    (t : Nat) (ht : m.timestamp = t) :
    preSave { c with messages := ms ++ [m], lastMessageAt := t }
      = { c with messages := ms ++ [m], lastMessageAt := t } := by
  simp only [preSave, List.getLast?_concat, ht]

/-- C7: the `join_chat` lookup is the `findOne` scoped by both the chat id
and the requesting user's id (and by `isActive`), so for every connection
authenticated as `uid` and every store in which no active chat with that id
is owned by `uid` — the chat is someone else's, inactive, or absent — the
handler emits the scoped error event to that connection and subscribes it to
no room. -/
theorem c7_join_denied (uid chatId : String) (db : DB)
    (h : ∀ c ∈ db.chats, ¬(c.id = chatId ∧ c.userId = uid ∧ c.isActive = true)) :
    joinChatHandler (some uid) chatId db
        = [JoinAction.emitError "CHAT_NOT_FOUND" "Chat not found or access denied"]
    ∧ ∀ r, JoinAction.joinRoom r ∉ joinChatHandler (some uid) chatId db := by
  have hf : findOne db chatId uid = none := by
    apply List.find?_eq_none.mpr
    intro c hc
    simp only [Bool.and_eq_true, beq_iff_eq, not_and]
    intro h1 h2
    exact h c hc ⟨h1.1, h1.2, h2⟩
  constructor
  · show (match findOne db chatId uid with
      | none => [JoinAction.emitError "CHAT_NOT_FOUND" "Chat not found or access denied"]
      | some _ => [JoinAction.joinRoom chatId, JoinAction.emitJoined chatId]) = _
    rw [hf]
  · intro r
    show JoinAction.joinRoom r ∉
      (match findOne db chatId uid with
        | none => [JoinAction.emitError "CHAT_NOT_FOUND" "Chat not found or access denied"]
        | some _ => [JoinAction.joinRoom chatId, JoinAction.emitJoined chatId])
    rw [hf]
    simp

/-- C7 witness: joining someone else's chat emits the scoped error and joins
no room. -/
theorem c7_witness :
    joinChatHandler (some "u1") "c9" otherDb
      = [JoinAction.emitError "CHAT_NOT_FOUND" "Chat not found or access denied"] :=
  (c7_join_denied "u1" "c9" otherDb (by decide)).1

/-- C6: appending to a chat that already holds 1000 messages fails with the
message-limit validation error — `save()` rejects with
`'Chat cannot have more than 1000 messages'` — and the persisted store is
returned exactly as it was: the stored 1000 messages, their order, and
`lastMessageAt` are unchanged. -/
theorem c6_message_limit_store_unchanged (db : DB) (chatId uid : String)
    (c : ChatDoc) (draft : MessageDraft) (now : Nat) (fid : String)
    (hfind : findOne db chatId uid = some c)
    (hlen : c.messages.length = 1000)
    (htop : 0 < c.topics.length ∧ c.topics.length ≤ 2) :
    addMessageToChat db chatId uid draft now fid
      = (db, Except.error "Chat cannot have more than 1000 messages") := by
  have hadd : docAddMessage db c draft now fid
      = Except.error "Chat cannot have more than 1000 messages" := by
    unfold docAddMessage docSave
    rw [preSave_pushed c c.messages _ now rfl]
    have hval : chatValidationError
        { c with
          messages := c.messages ++
            [{ text := draft.text, sender := draft.sender, aiModel := draft.aiModel,
               timestamp := now, messageId := fid }],
          lastMessageAt := now }
        = some "Chat cannot have more than 1000 messages" := by
      unfold chatValidationError
      rw [if_neg (by simp only [not_not]; exact htop)]
      rw [if_pos (by simp [hlen])]
    rw [hval]
  unfold addMessageToChat
  rw [hfind]
  show (match docAddMessage db c draft now fid with
    | Except.ok (db2, c2) => (db2, Except.ok c2)
    | Except.error e => (db, Except.error e)) = _
  rw [hadd]

/-- C6 witness: a concrete chat holding exactly 1000 stored messages rejects
the 1001st append and the store value is returned unchanged. -/
theorem c6_witness :
    addMessageToChat fullDb "c2" "u2" draft0 5 "mid"
      = (fullDb, Except.error "Chat cannot have more than 1000 messages") :=
  c6_message_limit_store_unchanged fullDb "c2" "u2" chat1000 draft0 5 "mid"
    (by rfl)
    (by rw [show chat1000.messages = List.replicate 1000 msg0 from rfl,
          List.length_replicate])
    (by decide)

theorem docAddMessage_ok_spec (db : DB) (c : ChatDoc) (draft : MessageDraft)
    (now : Nat) (fid : String) (db2 : DB) (c2 : ChatDoc)
    (h : docAddMessage db c draft now fid = Except.ok (db2, c2)) :
    c2.messages = c.messages ++
      [{ text := draft.text, sender := draft.sender, aiModel := draft.aiModel,
         timestamp := now, messageId := fid }]
    ∧ c2.lastMessageAt = now := by
  unfold docAddMessage docSave at h
  rw [preSave_pushed c c.messages _ now rfl] at h
  split at h
  · simp at h
  · simp only [Except.ok.injEq, Prod.mk.injEq] at h
    obtain ⟨-, hc⟩ := h
    refine ⟨?_, ?_⟩ <;> rw [← hc]

theorem appendAll_ok_spec (steps : List AppendStep) :
    ∀ db c db2 c2, appendAll db c steps = Except.ok (db2, c2) →
      (∀ m, c.messages.getLast? = some m → c.lastMessageAt = m.timestamp) →
      c2.messages.map (fun m => m.timestamp)
          = c.messages.map (fun m => m.timestamp) ++ steps.map (fun s => s.now)
      ∧ (∀ m, c2.messages.getLast? = some m → c2.lastMessageAt = m.timestamp) := by
  induction steps with
  | nil =>
    intro db c db2 c2 h hinv
    unfold appendAll at h
    simp only [Except.ok.injEq, Prod.mk.injEq] at h
    obtain ⟨-, hc⟩ := h
    subst hc
    exact ⟨by simp, hinv⟩
  | cons s rest ih =>
    intro db c db2 c2 h hinv
    unfold appendAll at h
    cases hd : docAddMessage db c s.draft s.now s.fid with
    | error e =>
      rw [hd] at h
      simp at h
    | ok p =>
      obtain ⟨db1, c1⟩ := p
      rw [hd] at h
      obtain ⟨hmsgs, hlast⟩ := docAddMessage_ok_spec db c s.draft s.now s.fid db1 c1 hd
      have hinv1 : ∀ m, c1.messages.getLast? = some m → c1.lastMessageAt = m.timestamp := by
        intro m hm
        rw [hmsgs, List.getLast?_concat] at hm
        injection hm with hm2
        rw [hlast, ← hm2]
      obtain ⟨hmap, hinv2⟩ := ih db1 c1 db2 c2 h hinv1
      refine ⟨?_, hinv2⟩
      rw [hmap, hmsgs]
      simp

/-- C8: starting from a freshly created chat (empty message list), any
sequence of `addMessage` calls that all succeed, performed with
non-decreasing clock readings, leaves the chat with exactly one stored
message per append, timestamps non-decreasing in stored order, and
`lastMessageAt` equal to the timestamp of the last stored message (it is
recomputed by every append's save). -/
theorem c8_sequential_append_invariant (db : DB) (c : ChatDoc)
    (steps : List AppendStep) (db2 : DB) (c2 : ChatDoc)
    (hinit : c.messages = [])
    (hmono : List.Chain' (fun a b => a ≤ b) (steps.map (fun s => s.now)))
    (hok : appendAll db c steps = Except.ok (db2, c2)) :
    c2.messages.length = steps.length
    ∧ List.Chain' (fun a b => a ≤ b) (c2.messages.map (fun m => m.timestamp))
    ∧ ∀ m, c2.messages.getLast? = some m → c2.lastMessageAt = m.timestamp := by
  have hinv : ∀ m, c.messages.getLast? = some m → c.lastMessageAt = m.timestamp := by
    rw [hinit]
    intro m hm
    simp at hm
  obtain ⟨hmap, hinv2⟩ := appendAll_ok_spec steps db c db2 c2 hok hinv
  rw [hinit] at hmap
  simp only [List.map_nil, List.nil_append] at hmap
  refine ⟨?_, ?_, hinv2⟩
  · have hlen := congrArg List.length hmap
    simpa using hlen
  · rw [hmap]
    exact hmono

/-- C8 witness: two successful sequential appends on a fresh chat yield two
stored messages with non-decreasing timestamps and an up-to-date
`lastMessageAt`. -/
theorem c8_witness :
    appendAll w8db w8chat w8steps = Except.ok (w8db2, w8chat2)
    ∧ w8chat2.messages.length = w8steps.length
    ∧ List.Chain' (fun a b => a ≤ b) (w8chat2.messages.map (fun m => m.timestamp)) :=
  ⟨rfl,
   (c8_sequential_append_invariant w8db w8chat w8steps w8db2 w8chat2 rfl
      (by simp [w8steps, List.chain'_cons, List.chain'_singleton]) rfl).1,
   (c8_sequential_append_invariant w8db w8chat w8steps w8db2 w8chat2 rfl
      (by simp [w8steps, List.chain'_cons, List.chain'_singleton]) rfl).2.1⟩

theorem messageHandler_valid_eq (uid text chatId : String) (db : DB)
    (chat : ChatDoc) (pu pa : Except String ChatDoc) (outcome : BackendOutcome)
    (el n1 n2 : Nat)
    (hne : ¬((jsTrim text).length = 0)) (hlen : ¬(5000 < text.length))
    (hchat : findOne db chatId uid = some chat) :
    messageHandler (some uid) text chatId db pu pa outcome el n1 n2
      = [HandlerAction.persistAttempt chatId uid
           { text := jsTrim text, sender := Sender.user, aiModel := none },
         HandlerAction.broadcast chatId
           { text := jsTrim text, sender := Sender.user, aiModel := none,
             timestamp := n1, messageId := toString n1 },
         HandlerAction.emitThinking chatId,
         HandlerAction.generateCall text chat.topics none]
        ++ (if (generateAIRun text chat.topics none none db outcome el).response.success
              && (generateAIRun text chat.topics none none db outcome el).response.text ≠ "" then
              [HandlerAction.persistAttempt chatId uid
                 { text := (generateAIRun text chat.topics none none db outcome el).response.text,
                   sender := Sender.ai,
                   aiModel := some (generateAIRun text chat.topics none none db outcome el).response.model },
               HandlerAction.broadcast chatId
                 { text := (generateAIRun text chat.topics none none db outcome el).response.text,
                   sender := Sender.ai,
                   aiModel := some (generateAIRun text chat.topics none none db outcome el).response.model,
                   timestamp := n2, messageId := toString n2 }]
            else
              [HandlerAction.emitError "AI_ERROR"
                 (truthyOr (generateAIRun text chat.topics none none db outcome el).response.error
                   "AI response generation failed")]) := by
  simp only [messageHandler]
  rw [if_neg hne, if_neg hlen, hchat]

theorem messageHandler_cases (uid text chatId : String) (db : DB)
    (pu pa : Except String ChatDoc) (outcome : BackendOutcome) (el n1 n2 : Nat) :
    messageHandler (some uid) text chatId db pu pa outcome el n1 n2
        = [HandlerAction.emitError "INVALID_MESSAGE" "Message text is required"]
    ∨ messageHandler (some uid) text chatId db pu pa outcome el n1 n2
        = [HandlerAction.emitError "MESSAGE_TOO_LONG" "Message too long (max 5000 characters)"]
    ∨ messageHandler (some uid) text chatId db pu pa outcome el n1 n2
        = [HandlerAction.emitError "CHAT_NOT_FOUND" "Chat not found or access denied"]
    ∨ ∃ chat, findOne db chatId uid = some chat
        ∧ messageHandler (some uid) text chatId db pu pa outcome el n1 n2
          = [HandlerAction.persistAttempt chatId uid
               { text := jsTrim text, sender := Sender.user, aiModel := none },
             HandlerAction.broadcast chatId
               { text := jsTrim text, sender := Sender.user, aiModel := none,
                 timestamp := n1, messageId := toString n1 },
             HandlerAction.emitThinking chatId,
             HandlerAction.generateCall text chat.topics none]
            ++ (if (generateAIRun text chat.topics none none db outcome el).response.success
                  && (generateAIRun text chat.topics none none db outcome el).response.text ≠ "" then
                  [HandlerAction.persistAttempt chatId uid
                     { text := (generateAIRun text chat.topics none none db outcome el).response.text,
                       sender := Sender.ai,
                       aiModel := some (generateAIRun text chat.topics none none db outcome el).response.model },
                   HandlerAction.broadcast chatId
                     { text := (generateAIRun text chat.topics none none db outcome el).response.text,
                       sender := Sender.ai,
                       aiModel := some (generateAIRun text chat.topics none none db outcome el).response.model,
                       timestamp := n2, messageId := toString n2 }]
                else
                  [HandlerAction.emitError "AI_ERROR"
                     (truthyOr (generateAIRun text chat.topics none none db outcome el).response.error
                       "AI response generation failed")]) := by
  by_cases h1 : (jsTrim text).length = 0
  · left
    simp only [messageHandler]
    rw [if_pos h1]
  · by_cases h2 : 5000 < text.length
    · right
      left
      simp only [messageHandler]
      rw [if_neg h1, if_pos h2]
    · cases hf : findOne db chatId uid with
      | none =>
        right
        right
        left
        simp only [messageHandler]
        rw [if_neg h1, if_neg h2, hf]
      | some chat =>
        right
        right
        right
        exact ⟨chat, rfl, messageHandler_valid_eq uid text chatId db chat pu pa outcome el n1 n2 h1 h2 hf⟩

/-- C1 counterexample: a concrete validated `message` event whose
`addMessageToChat` persistence attempt fails (`'DB write failed'`). The
handler's trace contains no `error` emission at all — the failure is caught,
logged and ignored — and processing continues (the user message is still
broadcast). This refutes the claim that a persistence failure is reported
to the caller as an error event. -/
theorem c1_counterexample :
    (messageHandler (some "u1") "hello" "c1" sampleDb
        (Except.error "DB write failed") (Except.ok sampleChat)
        (BackendOutcome.ok (some "Hi there") none) 3 10 11).countP isEmitError = 0
    ∧ HandlerAction.broadcast "c1"
        { text := "hello", sender := Sender.user, aiModel := none,
          timestamp := 10, messageId := "10" }
        ∈ messageHandler (some "u1") "hello" "c1" sampleDb
            (Except.error "DB write failed") (Except.ok sampleChat)
            (BackendOutcome.ok (some "Hi there") none) 3 10 11 :=
  ⟨rfl, by decide⟩

/-- C1 (amended): for every validated `message` event, persistence of the
user-authored message is attempted (the trace contains the
`addMessageToChat` attempt), but a failure of that attempt is caught and
logged and processing continues unchanged: the handler's observable trace —
including every error emission — is identical whatever the persistence
outcome, so the failure is never reported to the caller as an error
event. -/
theorem c1_persistence_failure_swallowed (uid text chatId : String) (db : DB)
    (chat : ChatDoc) (pu pu2 pa : Except String ChatDoc)
    (outcome : BackendOutcome) (el n1 n2 : Nat)
    (hne : ¬((jsTrim text).length = 0)) (hlen : text.length ≤ 5000)
    (hchat : findOne db chatId uid = some chat) :
    HandlerAction.persistAttempt chatId uid
        { text := jsTrim text, sender := Sender.user, aiModel := none }
      ∈ messageHandler (some uid) text chatId db pu pa outcome el n1 n2
    ∧ messageHandler (some uid) text chatId db pu pa outcome el n1 n2
        = messageHandler (some uid) text chatId db pu2 pa outcome el n1 n2 := by
  constructor
  · rw [messageHandler_valid_eq uid text chatId db chat pu pa outcome el n1 n2 hne
      (by omega) hchat]
    simp
  · rfl

/-- C1 witness: the amended statement at a concrete failing persistence
outcome. -/
theorem c1_witness :
    ¬((jsTrim "hello").length = 0)
    ∧ "hello".length ≤ 5000
    ∧ HandlerAction.persistAttempt "c1" "u1"
        { text := jsTrim "hello", sender := Sender.user, aiModel := none }
        ∈ messageHandler (some "u1") "hello" "c1" sampleDb (Except.error "boom")
            (Except.ok sampleChat) (BackendOutcome.err none) 2 5 6 :=
  ⟨by decide, by decide,
   (c1_persistence_failure_swallowed "u1" "hello" "c1" sampleDb sampleChat
      (Except.error "boom") (Except.ok sampleChat) (Except.ok sampleChat)
      (BackendOutcome.err none) 2 5 6 (by decide) (by decide) rfl).1⟩

/-- C3 counterexample: a concrete accepted `message` event. The handler's
trace contains no `SessionMemoryService` utterance-recording call at all,
and its `generateAIResponse` invocation passes no chat id — so no session
context is assembled: the prompt sent to the backend is exactly the raw
message text. This refutes the claim that the coordinator records the user
utterance and supplies `generate` with the chat's assembled context. -/
theorem c3_counterexample :
    (messageHandler (some "u1") "hello" "c1" sampleDb (Except.ok sampleChat)
        (Except.ok sampleChat) (BackendOutcome.ok (some "Hi") none) 3 10 11).all
        (fun a => !isRecordUtterance a) = true
    ∧ HandlerAction.generateCall "hello" [ChatTopic.health] none
        ∈ messageHandler (some "u1") "hello" "c1" sampleDb (Except.ok sampleChat)
            (Except.ok sampleChat) (BackendOutcome.ok (some "Hi") none) 3 10 11
    ∧ (generateAIRun "hello" [ChatTopic.health] none none sampleDb
        (BackendOutcome.ok (some "Hi") none) 3).promptSent = "hello" :=
  ⟨rfl, by decide, rfl⟩

/-- C3 (amended): the realtime `message` handler never invokes the Session
Memory Store — no trace contains an utterance-recording call — and every
`generateAIResponse` invocation it performs passes no chat id; with no chat
id supplied, `generateAIResponse` skips context assembly entirely and sends
the raw prompt unchanged to the backend. -/
theorem c3_no_memory_integration (uid text chatId : String) (db : DB)
    (pu pa : Except String ChatDoc) (outcome : BackendOutcome) (el n1 n2 : Nat)
    (prompt : String) (topics : List ChatTopic) (preferred : Option AIModel)
    (db2 : DB) (outcome2 : BackendOutcome) (el2 : Nat) :
    (messageHandler (some uid) text chatId db pu pa outcome el n1 n2).all
        (fun a => !isRecordUtterance a) = true
    ∧ (∀ p t cid, HandlerAction.generateCall p t cid
        ∈ messageHandler (some uid) text chatId db pu pa outcome el n1 n2 → cid = none)
    ∧ (generateAIRun prompt topics none preferred db2 outcome2 el2).promptSent = prompt := by
  refine ⟨?_, ?_, by rw [generateAIRun_promptSent]; rfl⟩
  · rcases messageHandler_cases uid text chatId db pu pa outcome el n1 n2 with
      heq | heq | heq | ⟨chat, -, heq⟩
    · rw [heq]; rfl
    · rw [heq]; rfl
    · rw [heq]; rfl
    · rw [heq, List.all_append]
      split <;> rfl
  · intro p t cid hmem
    rcases messageHandler_cases uid text chatId db pu pa outcome el n1 n2 with
      heq | heq | heq | ⟨chat, -, heq⟩ <;> rw [heq] at hmem
    · simp [isRecordUtterance] at hmem
    · simp at hmem
    · simp at hmem
    · rcases List.mem_append.mp hmem with hm | hm
      · simp only [List.mem_cons, List.mem_singleton] at hm
        rcases hm with h | h | h | h | h
        · exact absurd h (by simp)
        · exact absurd h (by simp)
        · exact absurd h (by simp)
        · injection h with h1 h2 h3
        · exact absurd h (by simp)
      · split at hm <;> simp at hm

/-- C3 witness: the amended statement at a concrete accepted event. -/
theorem c3_witness :
    (messageHandler (some "u1") "hello" "c1" sampleDb (Except.ok sampleChat)
        (Except.ok sampleChat) (BackendOutcome.err (some "down")) 3 10 11).all
        (fun a => !isRecordUtterance a) = true
    ∧ (generateAIRun "ask" [ChatTopic.education] none none emptyDb
        (BackendOutcome.ok (some "ok") none) 4).promptSent = "ask" :=
  ⟨(c3_no_memory_integration "u1" "hello" "c1" sampleDb (Except.ok sampleChat)
      (Except.ok sampleChat) (BackendOutcome.err (some "down")) 3 10 11
      "ask" [ChatTopic.education] none emptyDb (BackendOutcome.ok (some "ok") none) 4).1,
   (c3_no_memory_integration "u1" "hello" "c1" sampleDb (Except.ok sampleChat)
      (Except.ok sampleChat) (BackendOutcome.err (some "down")) 3 10 11
      "ask" [ChatTopic.education] none emptyDb (BackendOutcome.ok (some "ok") none) 4).2.2⟩

/-- C9: for every accepted `message` event, the handler's trace starts with
the persistence attempt for the user message, then the room broadcast of the
user message, then the `ai_thinking` notice to the origin connection, then
the `generateAIResponse` invocation; any AI-reply broadcast occurs strictly
later in the trace, and only when the generation result is tagged
successful. -/
theorem c9_message_event_ordering (uid text chatId : String) (db : DB)
    (chat : ChatDoc) (pu pa : Except String ChatDoc) (outcome : BackendOutcome)
    (el n1 n2 : Nat)
    (hne : ¬((jsTrim text).length = 0)) (hlen : text.length ≤ 5000)
    (hchat : findOne db chatId uid = some chat) :
    ∃ rest,
      messageHandler (some uid) text chatId db pu pa outcome el n1 n2
        = HandlerAction.persistAttempt chatId uid
            { text := jsTrim text, sender := Sender.user, aiModel := none }
          :: HandlerAction.broadcast chatId
            { text := jsTrim text, sender := Sender.user, aiModel := none,
              timestamp := n1, messageId := toString n1 }
          :: HandlerAction.emitThinking chatId
          :: HandlerAction.generateCall text chat.topics none
          :: rest
      ∧ ∀ m : ChatMessage, HandlerAction.broadcast chatId m ∈ rest →
          (generateAIRun text chat.topics none none db outcome el).response.success = true := by
  rw [messageHandler_valid_eq uid text chatId db chat pu pa outcome el n1 n2 hne
    (by omega) hchat]
  refine ⟨_, rfl, ?_⟩
  intro m hm
  by_cases hs : ((generateAIRun text chat.topics none none db outcome el).response.success
      && (generateAIRun text chat.topics none none db outcome el).response.text ≠ "") = true
  · exact (Bool.and_eq_true _ _ |>.mp hs).1
  · rw [if_neg (by exact fun hc => hs hc)] at hm
    simp at hm

/-- C9 witness: the ordering statement at a concrete accepted event with a
successful generation. -/
theorem c9_witness :
    ∃ rest,
      messageHandler (some "u1") "hello" "c1" sampleDb (Except.ok sampleChat)
          (Except.ok sampleChat) (BackendOutcome.ok (some "Hi") none) 3 10 11
        = HandlerAction.persistAttempt "c1" "u1"
            { text := jsTrim "hello", sender := Sender.user, aiModel := none }
          :: HandlerAction.broadcast "c1"
            { text := jsTrim "hello", sender := Sender.user, aiModel := none,
              timestamp := 10, messageId := toString 10 }
          :: HandlerAction.emitThinking "c1"
          :: HandlerAction.generateCall "hello" sampleChat.topics none
          :: rest
      ∧ ∀ m : ChatMessage, HandlerAction.broadcast "c1" m ∈ rest →
          (generateAIRun "hello" sampleChat.topics none none sampleDb
            (BackendOutcome.ok (some "Hi") none) 3).response.success = true :=
  c9_message_event_ordering "u1" "hello" "c1" sampleDb sampleChat
    (Except.ok sampleChat) (Except.ok sampleChat)
    (BackendOutcome.ok (some "Hi") none) 3 10 11 (by decide) (by decide) rfl

end AIChatBot
